import Mathlib

/-!
Verification of the `localauthentication-rs` binding layer.

The development embeds the two source files of the crate:
`src/lib.rs` (the `LAPolicy` enumeration, its two `From` conversions, and
the `LocalAuthentication` facade) and `src/external.rs` (the declarations
of the platform entry points `lacontext_new`, `lacontext_canEvaluatePolicy`
and `lacontext_evaluatePolicy`).  The platform entry points themselves are
implemented outside the crate; they are modelled here as an abstract
oracle together with an explicit record of each call the binding makes,
so that pass-through and "what is sent to the platform" properties can be
stated and proved.
-/

/-- The set of available local authentication policies
(`pub enum LAPolicy` in src/lib.rs, lines 122-138). -/
inductive LAPolicy
  | DeviceOwnerAuthenticationWithBiometrics
  | DeviceOwnerAuthentication
  | DeviceOwnerAuthenticationWithWatch
  | DeviceOwnerAuthenticationWithBiometricsOrWatch
  | Unknown
deriving DecidableEq

/-- Embedding of `impl From<LAPolicy> for Int` (src/lib.rs, lines 152-162):
the enum-to-integer policy translation.  The final wildcard arm mirrors the
Rust `_ => -1` arm, which only `Unknown` can reach. -/
def LAPolicy.toInt : LAPolicy → Int
  | .DeviceOwnerAuthenticationWithBiometrics => 1
  | .DeviceOwnerAuthentication => 2
  | .DeviceOwnerAuthenticationWithWatch => 3
  | .DeviceOwnerAuthenticationWithBiometricsOrWatch => 4
  | _ => -1

/-- Embedding of `impl From<Int> for LAPolicy` (src/lib.rs, lines 140-150):
the integer-to-enum policy translation, total on `Int` by the wildcard arm. -/
def LAPolicy.fromInt : Int → LAPolicy
  | 1 => .DeviceOwnerAuthenticationWithBiometrics
  | 2 => .DeviceOwnerAuthentication
  | 3 => .DeviceOwnerAuthenticationWithWatch
  | 4 => .DeviceOwnerAuthenticationWithBiometricsOrWatch
  | _ => .Unknown

/-- Record of one call the binding makes to a platform entry point, with the
exact arguments marshalled across the boundary: the context handle, the
integer policy code and (for evaluation) the reason string. -/
inductive PlatformCall
  | canEvaluate (ctx : Nat) (code : Int)
  | evaluate (ctx : Nat) (code : Int) (reason : String)
deriving DecidableEq

/-- The context handle a platform call targets. -/
def PlatformCall.ctx : PlatformCall → Nat
  | .canEvaluate c _ => c
  | .evaluate c _ _ => c

/-- The integer policy code a platform call carries. -/
def PlatformCall.code : PlatformCall → Int
  | .canEvaluate _ k => k
  | .evaluate _ k _ => k

/-- Modelled from the spec: the behaviour of the platform entry points
`lacontext_canEvaluatePolicy` and `lacontext_evaluatePolicy`, which are
declared in src/external.rs but implemented outside the crate.  The spec
treats them as a stand-in dependency returning an arbitrary boolean for a
given context handle, policy code and reason, so they are modelled as
unconstrained functions. -/
structure Platform where
  canEvaluateAnswer : Nat → Int → Bool
  evaluateAnswer : Nat → Int → String → Bool

/-- Modelled from the spec: the allocation state behind `lacontext_new`
(declared in src/external.rs, implemented outside the crate).  The spec says
construction requests a fresh context handle and never fails, so the state
is a counter of handles handed out so far. -/
structure PlatformState where
  nextHandle : Nat
deriving DecidableEq

/-- Modelled from the spec: `lacontext_new` returns a fresh context handle
and never fails. -/
def lacontext_new (s : PlatformState) : Nat × PlatformState :=
  (s.nextHandle, ⟨s.nextHandle + 1⟩)

/-- Embedding of `pub struct LocalAuthentication` (src/lib.rs, lines 36-38):
the session owns one context handle. -/
structure LocalAuthentication where
  context : Nat
deriving DecidableEq

/-- Embedding of `LocalAuthentication::new` (src/lib.rs, lines 42-45):
obtain a context from `lacontext_new` and store it. -/
def LocalAuthentication.new (s : PlatformState) : LocalAuthentication × PlatformState :=
  let (context, s') := lacontext_new s
  (⟨context⟩, s')

/-- Embedding of `LocalAuthentication::can_evaluate_policy` (src/lib.rs,
lines 75-78): convert the policy to its integer code, call the platform's
can-evaluate entry point on the owned context, and return its boolean
unmodified.  The result carries the (unchanged, `&self`) session and the
record of the platform call made. -/
def LocalAuthentication.can_evaluate_policy (p : Platform) (la : LocalAuthentication)
    (policy : LAPolicy) : Bool × LocalAuthentication × PlatformCall :=
  let code := LAPolicy.toInt policy
  (p.canEvaluateAnswer la.context code, la, .canEvaluate la.context code)

/-- Embedding of `LocalAuthentication::evaluate_policy` (src/lib.rs, lines
116-119): convert the policy to its integer code, pass the caller's reason
string through unchanged, call the platform's evaluate entry point on the
owned context, and return its boolean unmodified.  The result carries the
(unchanged, `&self`) session and the record of the platform call made. -/
def LocalAuthentication.evaluate_policy (p : Platform) (la : LocalAuthentication)
    (policy : LAPolicy) (reason : String) : Bool × LocalAuthentication × PlatformCall :=
  let code := LAPolicy.toInt policy
  (p.evaluateAnswer la.context code reason, la, .evaluate la.context code reason)

/-- One invocation a caller can make on a session. -/
inductive Op
  | canEvaluate (policy : LAPolicy)
  | evaluate (policy : LAPolicy) (reason : String)
deriving DecidableEq

/-- The policy argument of an invocation. -/
def Op.policy : Op → LAPolicy
  | .canEvaluate policy => policy
  | .evaluate policy _ => policy

/-- Run one invocation on a session. -/
def runOp (p : Platform) (la : LocalAuthentication) : Op → Bool × LocalAuthentication × PlatformCall
  | .canEvaluate policy => la.can_evaluate_policy p policy
  | .evaluate policy reason => la.evaluate_policy p policy reason

/-- Run a sequence of invocations on a session, threading the session value
and collecting the platform calls made. -/
def runOps (p : Platform) (la : LocalAuthentication) : List Op → LocalAuthentication × List PlatformCall
  | [] => (la, [])
  | op :: ops =>
      let r := runOp p la op
      let rest := runOps p r.2.1 ops
      (rest.1, r.2.2 :: rest.2)

/-- A concrete platform instance used to evaluate closed statements. -/
def truePlatform : Platform :=
  ⟨fun _ _ => true, fun _ _ _ => true⟩

/-- Helper: a single operation returns the session unchanged (the Rust
methods take `&self` and cannot rebind the context). -/
theorem runOp_session_eq (p : Platform) (la : LocalAuthentication) (op : Op) :
    (runOp p la op).2.1 = la := by
  cases op <;> rfl

/-- Helper: the platform call made by a single operation targets the
session's own context handle. -/
theorem runOp_call_ctx (p : Platform) (la : LocalAuthentication) (op : Op) :
    (runOp p la op).2.2.ctx = la.context := by
  cases op <;> rfl

/-- Helper: the platform call made by a single operation carries the integer
code of the policy argument. -/
theorem runOp_call_code (p : Platform) (la : LocalAuthentication) (op : Op) :
    (runOp p la op).2.2.code = LAPolicy.toInt op.policy := by
  cases op <;> rfl

/-- Helper: a sequence of operations returns the session unchanged. -/
theorem runOps_session_eq (p : Platform) (la : LocalAuthentication) (ops : List Op) :
    (runOps p la ops).1 = la := by
  induction ops generalizing la with
  | nil => rfl
  | cons op ops ih =>
      show (runOps p (runOp p la op).2.1 ops).1 = la
      rw [runOp_session_eq, ih]

/-- Helper: every platform call in a run targets the session's own context
handle. -/
theorem runOps_calls_ctx (p : Platform) (la : LocalAuthentication) (ops : List Op) :
    ∀ c ∈ (runOps p la ops).2, c.ctx = la.context := by
  induction ops generalizing la with
  | nil => intro c hc; cases hc
  | cons op ops ih =>
      intro c hc
      have hc' : c = (runOp p la op).2.2 ∨ c ∈ (runOps p (runOp p la op).2.1 ops).2 := by
        simpa [runOps] using hc
      rcases hc' with rfl | hc'
      · exact runOp_call_ctx p la op
      · have := ih (runOp p la op).2.1 c hc'
        rwa [runOp_session_eq] at this

/-- Claim C1: the enum-to-integer translation maps each policy variant to
exactly the fixed code of the table: Biometrics to 1, DeviceOwnerAuth to 2,
Watch to 3, BiometricsOrWatch to 4, Unknown to -1, covering every variant
of the enumeration. -/
theorem toInt_fixed_codes :
    LAPolicy.toInt .DeviceOwnerAuthenticationWithBiometrics = 1 ∧
    LAPolicy.toInt .DeviceOwnerAuthentication = 2 ∧
    LAPolicy.toInt .DeviceOwnerAuthenticationWithWatch = 3 ∧
    LAPolicy.toInt .DeviceOwnerAuthenticationWithBiometricsOrWatch = 4 ∧
    LAPolicy.toInt .Unknown = -1 := by
  decide

/-- Claim C2: the integer-to-enum translation is total on `Int` (it is a
total Lean function); on 1, 2, 3 and 4 it is the inverse of the
enum-to-integer mapping, and every other integer (including -1) is absorbed
into the Unknown sentinel rather than rejected. -/
theorem fromInt_total_inverse :
    (∀ n : Int, n = 1 ∨ n = 2 ∨ n = 3 ∨ n = 4 →
      LAPolicy.toInt (LAPolicy.fromInt n) = n) ∧
    (∀ n : Int, n ≠ 1 → n ≠ 2 → n ≠ 3 → n ≠ 4 →
      LAPolicy.fromInt n = .Unknown) := by
  constructor
  · rintro n (rfl | rfl | rfl | rfl) <;> decide
  · intro n h1 h2 h3 h4
    unfold LAPolicy.fromInt
    split <;> simp_all

/-- Witness for C2 at concrete inputs: 2 round-trips through the inverse,
and both 7 and -1 map to Unknown. -/
theorem fromInt_total_inverse_witness :
    LAPolicy.toInt (LAPolicy.fromInt 2) = 2 ∧
    LAPolicy.fromInt 7 = .Unknown ∧
    LAPolicy.fromInt (-1) = .Unknown :=
  ⟨fromInt_total_inverse.1 2 (Or.inr (Or.inl rfl)),
   fromInt_total_inverse.2 7 (by decide) (by decide) (by decide) (by decide),
   fromInt_total_inverse.2 (-1) (by decide) (by decide) (by decide) (by decide)⟩

/-- Claim C3: for each of the four defined policy variants, converting to
the integer code and back yields the original variant. -/
theorem roundtrip_defined_variants :
    LAPolicy.fromInt (LAPolicy.toInt .DeviceOwnerAuthenticationWithBiometrics)
      = .DeviceOwnerAuthenticationWithBiometrics ∧
    LAPolicy.fromInt (LAPolicy.toInt .DeviceOwnerAuthentication)
      = .DeviceOwnerAuthentication ∧
    LAPolicy.fromInt (LAPolicy.toInt .DeviceOwnerAuthenticationWithWatch)
      = .DeviceOwnerAuthenticationWithWatch ∧
    LAPolicy.fromInt (LAPolicy.toInt .DeviceOwnerAuthenticationWithBiometricsOrWatch)
      = .DeviceOwnerAuthenticationWithBiometricsOrWatch := by
  decide

/-- Claim C4: for every platform behaviour and every policy argument,
can_evaluate_policy returns exactly the boolean the platform's can-evaluate
entry point produces for the owned context and the policy's integer code,
and leaves the session unchanged. -/
theorem can_evaluate_policy_passthrough (p : Platform) (la : LocalAuthentication)
    (policy : LAPolicy) :
    (la.can_evaluate_policy p policy).1
        = p.canEvaluateAnswer la.context (LAPolicy.toInt policy) ∧
    (la.can_evaluate_policy p policy).2.1 = la :=
  ⟨rfl, rfl⟩

/-- Claim C5: for every platform behaviour, policy argument and reason
string, evaluate_policy returns exactly the boolean the platform's evaluate
entry point produces, and the call it makes carries the owned context, the
policy's integer code, and a reason byte-identical to the caller's string. -/
theorem evaluate_policy_passthrough (p : Platform) (la : LocalAuthentication)
    (policy : LAPolicy) (reason : String) :
    (la.evaluate_policy p policy reason).1
        = p.evaluateAnswer la.context (LAPolicy.toInt policy) reason ∧
    (la.evaluate_policy p policy reason).2.2
        = PlatformCall.evaluate la.context (LAPolicy.toInt policy) reason :=
  ⟨rfl, rfl⟩

/-- Claim C6 counterexample: the claim quantifies over any policy argument,
but invoking can_evaluate_policy with the Unknown variant passes the integer
code -1 to the platform's can-evaluate entry point, not one of 1, 2, 3, 4. -/
theorem unknown_policy_sends_minus_one :
    (LocalAuthentication.can_evaluate_policy truePlatform ⟨0⟩ .Unknown).2.2.code = -1 :=
  rfl

/-- Claim C6 (amended): for every sequence of invocations of
can_evaluate_policy or evaluate_policy whose policy arguments are not the
Unknown variant, every integer policy code passed to the platform's
can-evaluate/evaluate entry points is one of 1, 2, 3, 4 and is never -1. -/
theorem sent_codes_in_range (p : Platform) (la : LocalAuthentication) (ops : List Op)
    (h : ∀ op ∈ ops, op.policy ≠ LAPolicy.Unknown) :
    ∀ c ∈ (runOps p la ops).2,
      (c.code = 1 ∨ c.code = 2 ∨ c.code = 3 ∨ c.code = 4) ∧ c.code ≠ -1 := by
  induction ops generalizing la with
  | nil => intro c hc; cases hc
  | cons op ops ih =>
      intro c hc
      have hc' : c = (runOp p la op).2.2 ∨ c ∈ (runOps p (runOp p la op).2.1 ops).2 := by
        simpa [runOps] using hc
      rcases hc' with rfl | hc'
      · rw [runOp_call_code]
        have hop := h op (List.mem_cons_self op ops)
        cases hpol : op.policy <;> simp_all [LAPolicy.toInt]
      · exact ih (runOp p la op).2.1 (fun o ho => h o (List.mem_cons_of_mem op ho)) c hc'

/-- Witness for C6 (amended): a run of one can-evaluate and one evaluate
invocation with defined policies, whose recorded calls carry codes 2 and 3. -/
theorem sent_codes_in_range_witness :
    ((PlatformCall.canEvaluate 0 2).code = 1 ∨ (PlatformCall.canEvaluate 0 2).code = 2 ∨
      (PlatformCall.canEvaluate 0 2).code = 3 ∨ (PlatformCall.canEvaluate 0 2).code = 4) ∧
    (PlatformCall.canEvaluate 0 2).code ≠ -1 :=
  sent_codes_in_range truePlatform ⟨0⟩
    [Op.canEvaluate .DeviceOwnerAuthentication,
     Op.evaluate .DeviceOwnerAuthenticationWithWatch "authenticate your user"]
    (by decide) (PlatformCall.canEvaluate 0 2) (by decide)

/-- Claim C7: a session owns exactly one context handle, obtained at
construction by new, and no sequence of can_evaluate_policy or
evaluate_policy invocations rebinds it: the context field after any
sequence of operations equals the one established at construction. -/
theorem context_never_rebound (p : Platform) (s : PlatformState) (ops : List Op) :
    (runOps p (LocalAuthentication.new s).1 ops).1.context
      = (LocalAuthentication.new s).1.context := by
  rw [runOps_session_eq]

/-- Claim C8: two sessions constructed by separate calls to new hold
distinct context handles, and no platform call made by operations on either
session targets the other session's context, so neither session's state or
observable behaviour is affected by the other's operations. -/
theorem sessions_independent (p : Platform) (s : PlatformState) (ops : List Op) :
    (LocalAuthentication.new s).1.context
        ≠ (LocalAuthentication.new (LocalAuthentication.new s).2).1.context ∧
    (∀ c ∈ (runOps p (LocalAuthentication.new s).1 ops).2,
        c.ctx ≠ (LocalAuthentication.new (LocalAuthentication.new s).2).1.context) ∧
    (∀ c ∈ (runOps p (LocalAuthentication.new (LocalAuthentication.new s).2).1 ops).2,
        c.ctx ≠ (LocalAuthentication.new s).1.context) := by
  refine ⟨by simp [LocalAuthentication.new, lacontext_new], ?_, ?_⟩
  · intro c hc
    rw [runOps_calls_ctx p _ ops c hc]
    simp [LocalAuthentication.new, lacontext_new]
  · intro c hc
    rw [runOps_calls_ctx p _ ops c hc]
    simp [LocalAuthentication.new, lacontext_new]

/-- Witness for C8 at concrete inputs: two sessions built from the initial
platform state hold handles 0 and 1, and the call recorded by a
can-evaluate invocation on the first targets handle 0, not handle 1. -/
theorem sessions_independent_witness :
    (LocalAuthentication.new ⟨0⟩).1.context
        ≠ (LocalAuthentication.new (LocalAuthentication.new ⟨0⟩).2).1.context ∧
    (PlatformCall.canEvaluate 0 2).ctx
        ≠ (LocalAuthentication.new (LocalAuthentication.new ⟨0⟩).2).1.context :=
  ⟨(sessions_independent truePlatform ⟨0⟩ [Op.canEvaluate .DeviceOwnerAuthentication]).1,
   (sessions_independent truePlatform ⟨0⟩ [Op.canEvaluate .DeviceOwnerAuthentication]).2.1
     (PlatformCall.canEvaluate 0 2) (by decide)⟩

/-- Claim C9: construction always succeeds: for every platform state, new
returns (with no error branch, as a total function) a session holding the
platform's fresh context handle, and advances the platform's allocation
state past it. -/
theorem new_always_succeeds (s : PlatformState) :
    (LocalAuthentication.new s).1.context = (lacontext_new s).1 ∧
    (LocalAuthentication.new s).1.context = s.nextHandle ∧
    (LocalAuthentication.new s).2.nextHandle = s.nextHandle + 1 :=
  ⟨rfl, rfl, rfl⟩

/-- Claim C10: the enum-to-integer-to-enum round-trip is the identity on
all five variants of the enumeration, the Unknown sentinel included
(Unknown maps to -1 and -1 maps back to Unknown). -/
theorem roundtrip_all_variants (v : LAPolicy) :
    LAPolicy.fromInt (LAPolicy.toInt v) = v := by
  cases v <;> rfl
